import Mathlib

/-!
Shallow embedding of the SvgToGcode repository (svg_to_gcode package):
the geometry curve family (`_line.py`, `_quadratic_bazier.py`,
`_cubic_bazier.py`) and the `Compiler` class (`compiler/_compiler.py`).

Numbers are modelled as exact rationals.  The `Vector` class, the
`Interface` command emitters, the `UNITS` and `TOLERANCES` constants and
the colour helpers `from_rgb` / `from_hex` are referenced by the sources
but their files are not part of the repository snapshot; where needed
they are modelled from the specification and marked as such.
-/

namespace SvgToGcode

/-- Modelled from the spec: `Vector` is a 2D (x, y) pair with
component-wise arithmetic (its source file is not in the snapshot). -/
@[ext]
structure Vec where
  x : ℚ
  y : ℚ
deriving DecidableEq, Repr

/-- Component-wise vector addition. -/
def Vec.add (a b : Vec) : Vec := ⟨a.x + b.x, a.y + b.y⟩

/-- Component-wise vector subtraction. -/
def Vec.sub (a b : Vec) : Vec := ⟨a.x - b.x, a.y - b.y⟩

/-- Scalar multiplication of a vector. -/
def Vec.smul (c : ℚ) (a : Vec) : Vec := ⟨c * a.x, c * a.y⟩

/-- Modelled from the spec: squared Euclidean magnitude.  The spec's
`abs(vector)` is the Euclidean magnitude; comparisons `|v| > tol` are
expressed below as `magSq v > tol^2`, equivalent for `tol ≥ 0`. -/
def Vec.magSq (a : Vec) : ℚ := a.x ^ 2 + a.y ^ 2

/-- Modelled from the spec: `formulas.line_slope` (the `formulas` module
is not in the snapshot): the slope `Δy / Δx` of the segment `p1 p2`.
For `p1.x = p2.x` the rational division yields `0`. -/
def line_slope (p1 p2 : Vec) : ℚ := (p1.y - p2.y) / (p1.x - p2.x)

/-- Modelled from the spec: `formulas.line_offset`: the y-intercept of
the line through `p1` and `p2`. -/
def line_offset (p1 p2 : Vec) : ℚ := p1.y - line_slope p1 p2 * p1.x

/-- `Line.point` (geometry/_line.py, lines 27-31): x is interpolated
between the endpoints, y is recovered from the precomputed slope and
offset (`y = slope * x + offset`). -/
def linePoint (start endp : Vec) (t : ℚ) : Vec :=
  let x := start.x + t * (endp.x - start.x)
  let y := line_slope start endp * x + line_offset start endp
  ⟨x, y⟩

/-- `QuadraticBezier.point` (geometry/_quadratic_bazier.py, lines 24-25):
`control + (1-t)^2 (start - control) + t^2 (end - control)`. -/
def quadraticBezierPoint (start endp control : Vec) (t : ℚ) : Vec :=
  (control.add (Vec.smul ((1 - t) ^ 2) (start.sub control))).add
    (Vec.smul (t ^ 2) (endp.sub control))

/-- `CubicBazier.point` (geometry/_cubic_bazier.py, lines 23-27): the
cubic Bernstein blend of start, control1, control2, end. -/
def cubicBazierPoint (start endp control1 control2 : Vec) (t : ℚ) : Vec :=
  ((Vec.smul ((1 - t) ^ 3) start).add
    (Vec.smul (3 * (1 - t) ^ 2 * t) control1)).add
    ((Vec.smul (3 * (1 - t) * t ^ 2) control2).add (Vec.smul (t ^ 3) endp))

/-- Modelled from the spec: the Interface capability contract (§4.3 of
the design).  The concrete wire syntax is pluggable and the interface
implementations are not in the snapshot, so each emitter call is kept as
a symbolic command.  `linear_move` carries the optional x, y, z and c
arguments; `set_unit` carries the optional unit string. -/
inductive Cmd where
  | laser_off : Cmd
  | set_laser_power (power : ℚ) : Cmd
  | set_movement_speed (speed : ℚ) : Cmd
  | set_absolute_coordinates : Cmd
  | set_relative_coordinates : Cmd
  | linear_move (x y z c : Option ℚ) : Cmd
  | set_unit (unit : Option String) : Cmd
  | dwell (milliseconds : ℚ) : Cmd
deriving DecidableEq, Repr

/-- A line segment as consumed by `Compiler.append_line_chain`.  `start`
and `endp` are the geometric endpoints (`end` in the source).  The style
payload is modelled as pre-extracted values: `strokeWidth` is
`float(line0.stroke_width)`; `opacityAttr` is `line0.opacity` when that
attribute exists; `strokeGray` is `from_rgb(line0.stroke)` when the
`stroke` attribute exists; `styleOpacity`, `styleStroke` and
`styleStrokeWidth` are the parsed `opacity:`, `stroke:` (through
`from_hex`) and `stroke-width:` fragments of the `style` string when
present.  The string scanners `from_rgb`, `from_hex` and `float` are not
in the snapshot; per the spec (§7) an unparsable or absent fragment
falls back to opacity 1 and gray 0, which the `Option` defaults below
realise. -/
structure GLine where
  start : Vec
  endp : Vec
  strokeWidth : ℚ := 0
  opacityAttr : Option ℚ := none
  strokeGray : Option ℚ := none
  styleOpacity : Option ℚ := none
  styleStroke : Option ℚ := none
  styleStrokeWidth : Option ℚ := none
deriving DecidableEq, Repr

/-- Round a rational to the nearest integer, ties to even — the
semantics of Python's builtin `round` (on exact values). -/
def roundHalfEven (q : ℚ) : ℤ :=
  let f := ⌊q⌋
  if q - f < 1 / 2 then f
  else if 1 / 2 < q - f then f + 1
  else if 2 ∣ f then f else f + 1

/-- Python's `round(q, 4)`: round to four decimal places, ties to
even. -/
def round4 (q : ℚ) : ℚ := (roundHalfEven (q * 10000) : ℚ) / 10000

/-- The literal coefficient on line 146 of `_compiler.py`. -/
def grayCoefficient : ℚ := 997826086956047 / 10 ^ 15

/-- Lines 122-127 of `_compiler.py`: when `stroke_width > 0`,
`laser_power` is set to `stroke_width`, clamped down to 1; otherwise the
previous `laser_power` is kept.  (This assignment is transient: line 146
overwrites `laser_power` unconditionally.) -/
def strokeWidthPower (prev width : ℚ) : ℚ :=
  if 0 < width then (if 1 < width then 1 else width) else prev

/-- Lines 128-139 of `_compiler.py`: starting from opacity 1 and gray 0,
the `opacity` attribute and `from_rgb(stroke)` override the defaults,
and the `style` string's `opacity:` and `stroke:` fragments override
those in turn. -/
def deriveOpacityGray (l : GLine) : ℚ × ℚ :=
  let opacity : ℚ := 1
  let gray : ℚ := 0
  let opacity := match l.opacityAttr with | some o => o | none => opacity
  let gray := match l.strokeGray with | some g => g | none => gray
  let opacity := match l.styleOpacity with | some o => o | none => opacity
  let gray := match l.styleStroke with | some g => g | none => gray
  (opacity, gray)

/-- Line 146 of `_compiler.py`: the final laser power,
`opacity - round(gray * 0.997826086956047, 4)`. -/
def derivedPower (l : GLine) : ℚ :=
  let (opacity, gray) := deriveOpacityGray l
  opacity - round4 (gray * grayCoefficient)

/-- Lines 114 and 143-145 of `_compiler.py`: `speed_multiplier` is reset
to 1 and, when the style string carries a `stroke-width:` fragment, set
to `1 - width`. -/
def derivedSpeedMultiplier (l : GLine) : ℚ :=
  match l.styleStrokeWidth with
  | some w => 1 - w
  | none => 1

/-- The `Compiler` object state (`_compiler.py`), together with the
tracked position of the single `Interface` instance it owns (the
interface sources are not in the snapshot; per the spec §4.3
`linear_move` updates the tracked position as an observable side
effect). -/
structure Compiler where
  movement_speed : ℚ
  cutting_speed : ℚ
  speed_multiplier : ℚ
  pass_depth : ℚ
  dwell_time : ℚ
  laser_power : ℚ
  unit : Option String
  header : List Cmd
  footer : List Cmd
  body : List Cmd
  position : Option Vec
deriving DecidableEq, Repr

/-- Modelled from the spec: the fixed known unit set (`UNITS`, defined
in the package `__init__`, not in the snapshot); the spec (§6) fixes
only that the set is known and fixed, its members are taken as
millimetres and inches. -/
def UNITS : List String := ["mm", "in"]

/-- The error text of `_compiler.py` line 39, with the offending value
and the valid set interpolated. -/
def unitErrorMessage (u : String) : String :=
  "Unknown unit " ++ u ++ ". Please specify one of the following: [mm, in]"

/-- `Compiler.__init__` (lines 17-52): validates the unit, stores
`abs(pass_depth)`, initialises `speed_multiplier = 1` and
`laser_power = 1`, builds the header from the absolute-coordinates
command, the movement-speed command and the custom header (default
`[laser_off]`), keeps the custom footer (default `[laser_off]`), and
starts with an empty body.  The fresh interface has no tracked
position. -/
def compilerInit (movement_speed cutting_speed pass_depth dwell_time : ℚ)
    (unit : Option String) (custom_header custom_footer : Option (List Cmd)) :
    Except String Compiler :=
  match unit with
  | some u =>
    if u ∈ UNITS then
      Except.ok
        { movement_speed := movement_speed
          cutting_speed := cutting_speed
          speed_multiplier := 1
          pass_depth := |pass_depth|
          dwell_time := dwell_time
          laser_power := 1
          unit := some u
          header := [Cmd.set_absolute_coordinates,
                     Cmd.set_movement_speed movement_speed] ++
                    custom_header.getD [Cmd.laser_off]
          footer := custom_footer.getD [Cmd.laser_off]
          body := []
          position := none }
    else Except.error (unitErrorMessage u)
  | none =>
    Except.ok
      { movement_speed := movement_speed
        cutting_speed := cutting_speed
        speed_multiplier := 1
        pass_depth := |pass_depth|
        dwell_time := dwell_time
        laser_power := 1
        unit := none
        header := [Cmd.set_absolute_coordinates,
                   Cmd.set_movement_speed movement_speed] ++
                  custom_header.getD [Cmd.laser_off]
        footer := custom_footer.getD [Cmd.laser_off]
        body := []
        position := none }

/-- The commands appended between two passes (`_compiler.py` lines
75-81): the laser-off command always, followed by the descend commands
(relative mode, move down by `pass_depth` on z, back to absolute mode)
when `pass_depth > 0`. -/
def interPass (pass_depth : ℚ) : List Cmd :=
  [Cmd.laser_off] ++
    (if 0 < pass_depth then
      [Cmd.set_relative_coordinates,
       Cmd.linear_move none none (some (-pass_depth)) none,
       Cmd.set_absolute_coordinates]
    else [])

/-- The descend sequence of the spec's multi-pass property: laser off,
relative mode, move down by `pass_depth` on z, restore absolute mode. -/
def descendSeq (pass_depth : ℚ) : List Cmd :=
  [Cmd.laser_off, Cmd.set_relative_coordinates,
   Cmd.linear_move none none (some (-pass_depth)) none,
   Cmd.set_absolute_coordinates]

/-- `Compiler.compile` (lines 54-87) at the command level: header, then
`set_unit`, then for each pass the body followed (except after the last
pass) by `interPass`, then the footer.  The final empty-command filter
and newline join depend on the pluggable interface's rendering, which is
not in the snapshot; claims are settled on the command sequence. -/
def Compiler.compileCmds (c : Compiler) (passes : Nat) : List Cmd :=
  c.header ++ [Cmd.set_unit c.unit] ++
    ((List.range passes).flatMap (fun i =>
      c.body ++ (if i < passes - 1 then interPass c.pass_depth else []))) ++
    c.footer

/-- Line 149 of `_compiler.py`: a reposition is needed when the tracked
position is unset or farther from `start` than the operation tolerance
(compared through squared magnitudes; the numeric value of
`TOLERANCES["operation"]` is not in the snapshot, so the tolerance is a
parameter). -/
def repositionNeeded (tol : ℚ) (position : Option Vec) (start : Vec) : Bool :=
  match position with
  | none => true
  | some p => decide (tol ^ 2 < Vec.magSq (p.sub start))

/-- Lines 151-156 of `_compiler.py`: the reposition sequence — laser
off, movement speed, travel move to the chain start (with `c=0`),
cutting speed scaled by the speed multiplier, laser power — prefixed by
a dwell command when `dwell_time > 0`. -/
def repositionSeq (c : Compiler) (start : Vec) (lp sm : ℚ) : List Cmd :=
  (if 0 < c.dwell_time then [Cmd.dwell c.dwell_time] else []) ++
    [Cmd.laser_off, Cmd.set_movement_speed c.movement_speed,
     Cmd.linear_move (some start.x) (some start.y) none (some 0),
     Cmd.set_movement_speed (c.cutting_speed * sm),
     Cmd.set_laser_power lp]

/-- Lines 158-159 of `_compiler.py`: one `linear_move` to each segment's
end point. -/
def segmentMoves (chain : List GLine) : List Cmd :=
  chain.map (fun l => Cmd.linear_move (some l.endp.x) (some l.endp.y) none none)

/-- The `code` list built by `append_line_chain` (lines 107-159) for a
given chain: empty for the empty chain; otherwise the reposition
sequence when `repositionNeeded`, followed by the segment moves. -/
def appendCode (tol : ℚ) (c : Compiler) (chain : List GLine) : List Cmd :=
  match chain with
  | [] => []
  | line0 :: _ =>
    (if repositionNeeded tol c.position line0.start then
      repositionSeq c line0.start (derivedPower line0)
        (derivedSpeedMultiplier line0)
    else []) ++ segmentMoves chain

/-- `Compiler.append_line_chain` (lines 101-161) as a state transformer:
an empty chain returns with no mutation; otherwise `speed_multiplier`
and `laser_power` are set from the first segment (line 146 assigns the
final power unconditionally), the `code` list is appended to the body,
and the interface's tracked position ends at the last segment's end
point (every emitted `linear_move` carries both x and y). -/
def appendLineChain (tol : ℚ) (c : Compiler) (chain : List GLine) : Compiler :=
  match chain with
  | [] => c
  | line0 :: rest =>
    { c with
      speed_multiplier := derivedSpeedMultiplier line0
      laser_power := derivedPower line0
      body := c.body ++ appendCode tol c (line0 :: rest)
      position := some (((line0 :: rest).getLast?.getD line0).endp) }

/-- A representative positive operation tolerance; the numeric value of
`TOLERANCES["operation"]` is not in the snapshot, so theorems take the
tolerance as a parameter and concrete witnesses use this value. -/
def tolOp : ℚ := 1 / 1000

/-- The compiler produced by
`Compiler(interface, movement_speed=1000, cutting_speed=500,
pass_depth=0)` with default header and footer — the configuration of the
spec's worked example. -/
def exampleCompiler : Compiler :=
  { movement_speed := 1000
    cutting_speed := 500
    speed_multiplier := 1
    pass_depth := 0
    dwell_time := 0
    laser_power := 1
    unit := none
    header := [Cmd.set_absolute_coordinates, Cmd.set_movement_speed 1000,
               Cmd.laser_off]
    footer := [Cmd.laser_off]
    body := []
    position := none }

/-- The single segment of the spec's worked example: the `Line` from
(0,0) to (10,0) with default style payload (`stroke_width="0"`,
`stroke=""`; `from_rgb("")` falls back to gray 0 per spec §7). -/
def exampleLine : GLine := { start := ⟨0, 0⟩, endp := ⟨10, 0⟩, strokeGray := some 0 }

/-- A second segment starting exactly where `exampleLine` ends, for the
redundant-move-suppression scenario. -/
def exampleLine2 : GLine := { start := ⟨10, 0⟩, endp := ⟨5, 5⟩, strokeGray := some 0 }

/-- A segment with `stroke_width="0.6"` and default colour payload. -/
def thickLine : GLine :=
  { start := ⟨0, 0⟩, endp := ⟨10, 0⟩, strokeWidth := 6 / 10, strokeGray := some 0 }

/-- `exampleCompiler` with `pass_depth = 5` and a two-command body, for
the multi-pass scenario. -/
def multipassCompiler : Compiler :=
  { exampleCompiler with
    pass_depth := 5
    body := [Cmd.set_laser_power 1, Cmd.linear_move (some 10) (some 0) none none] }

/-- `exampleCompiler` (so `pass_depth = 0`) with a one-command body, for
the zero-depth multi-pass scenario. -/
def zeroDepthCompiler : Compiler :=
  { exampleCompiler with body := [Cmd.set_laser_power 1] }

/-- The compiler record produced by construction with
`pass_depth = -5` (and movement 1000, cutting 500, no unit, default
header and footer). -/
def negDepthCompiler : Compiler :=
  { movement_speed := 1000
    cutting_speed := 500
    speed_multiplier := 1
    pass_depth := |(-5 : ℚ)|
    dwell_time := 0
    laser_power := 1
    unit := none
    header := [Cmd.set_absolute_coordinates, Cmd.set_movement_speed 1000,
               Cmd.laser_off]
    footer := [Cmd.laser_off]
    body := []
    position := none }

end SvgToGcode

namespace SvgToGcode

/-! Helper lemmas about the curve point functions. -/

theorem quadraticBezierPoint_zero (s e c : Vec) : quadraticBezierPoint s e c 0 = s := by
  ext <;> simp [quadraticBezierPoint, Vec.add, Vec.sub, Vec.smul]

theorem quadraticBezierPoint_one (s e c : Vec) : quadraticBezierPoint s e c 1 = e := by
  ext <;> simp [quadraticBezierPoint, Vec.add, Vec.sub, Vec.smul]

theorem cubicBazierPoint_zero (s e c1 c2 : Vec) : cubicBazierPoint s e c1 c2 0 = s := by
  ext <;> simp [cubicBazierPoint, Vec.add, Vec.sub, Vec.smul]

theorem cubicBazierPoint_one (s e c1 c2 : Vec) : cubicBazierPoint s e c1 c2 1 = e := by
  ext <;> simp [cubicBazierPoint, Vec.add, Vec.sub, Vec.smul]

theorem linePoint_zero (s e : Vec) : linePoint s e 0 = s := by
  ext
  · simp [linePoint]
  · simp [linePoint, line_slope, line_offset]

theorem linePoint_one (s e : Vec) (h : s.x ≠ e.x) : linePoint s e 1 = e := by
  have hne : s.x - e.x ≠ 0 := sub_ne_zero.mpr h
  ext
  · simp [linePoint]
  · simp [linePoint, line_slope, line_offset]
    field_simp
    ring

/-- C3 counterexample: for the vertical `Line` from (0,0) to (0,10),
`point(1)` evaluates to (0,0), the start — at squared distance 100 from
the end point, far beyond any tolerance the program could use (the whole
segment has length 10), so `point(1) = end` fails. -/
theorem curve_point_vertical_line_cex :
    linePoint ⟨0, 0⟩ ⟨0, 10⟩ 1 = ⟨0, 0⟩ ∧
      Vec.magSq ((linePoint ⟨0, 0⟩ ⟨0, 10⟩ 1).sub ⟨0, 10⟩) = 100 ∧
      ¬ Vec.magSq ((linePoint ⟨0, 0⟩ ⟨0, 10⟩ 1).sub ⟨0, 10⟩) ≤ tolOp ^ 2 := by
  refine ⟨?_, ?_, ?_⟩ <;>
    norm_num [linePoint, line_slope, line_offset, Vec.sub, Vec.magSq, tolOp]

/-- C3 (amended): `point(0) = start` and `point(1) = end` hold exactly
(hence within any tolerance) for `QuadraticBezier` and `CubicBazier` at
all endpoints, and for `Line` whenever the endpoints differ in x; the
slope/offset form of `Line.point` cannot reach the end of a vertical
segment. -/
theorem curve_point_endpoints (s e control c1 c2 : Vec) (h : s.x ≠ e.x) :
    (linePoint s e 0 = s ∧ linePoint s e 1 = e) ∧
      (quadraticBezierPoint s e control 0 = s ∧
        quadraticBezierPoint s e control 1 = e) ∧
      (cubicBazierPoint s e c1 c2 0 = s ∧ cubicBazierPoint s e c1 c2 1 = e) :=
  ⟨⟨linePoint_zero s e, linePoint_one s e h⟩,
    ⟨quadraticBezierPoint_zero s e control, quadraticBezierPoint_one s e control⟩,
    ⟨cubicBazierPoint_zero s e c1 c2, cubicBazierPoint_one s e c1 c2⟩⟩

/-- Witness for C3: the amended statement at concrete endpoints. -/
theorem curve_point_endpoints_witness :
    (linePoint ⟨0, 0⟩ ⟨3, 4⟩ 0 = ⟨0, 0⟩ ∧ linePoint ⟨0, 0⟩ ⟨3, 4⟩ 1 = ⟨3, 4⟩) ∧
      (quadraticBezierPoint ⟨0, 0⟩ ⟨3, 4⟩ ⟨1, 1⟩ 0 = ⟨0, 0⟩ ∧
        quadraticBezierPoint ⟨0, 0⟩ ⟨3, 4⟩ ⟨1, 1⟩ 1 = ⟨3, 4⟩) ∧
      (cubicBazierPoint ⟨0, 0⟩ ⟨3, 4⟩ ⟨1, 1⟩ ⟨2, 2⟩ 0 = ⟨0, 0⟩ ∧
        cubicBazierPoint ⟨0, 0⟩ ⟨3, 4⟩ ⟨1, 1⟩ ⟨2, 2⟩ 1 = ⟨3, 4⟩) :=
  curve_point_endpoints ⟨0, 0⟩ ⟨3, 4⟩ ⟨1, 1⟩ ⟨1, 1⟩ ⟨2, 2⟩ (by norm_num)

/-- C7: appending an empty `LineSegmentChain` leaves the whole compiler
state — body, `laser_power`, `speed_multiplier` and the interface's
tracked position — unchanged (the source warns and returns before any
mutation). -/
theorem append_empty_chain_noop (tol : ℚ) (c : Compiler) :
    appendLineChain tol c [] = c := rfl

/-- C8: construction with a unit outside the known set fails with the
error that names the offending value and the valid set, and never
succeeds. -/
theorem invalid_unit_errors (ms cs pd dt : ℚ) (u : String)
    (ch cf : Option (List Cmd)) (h : u ∉ UNITS) :
    compilerInit ms cs pd dt (some u) ch cf =
        Except.error (unitErrorMessage u) ∧
      ∀ s, compilerInit ms cs pd dt (some u) ch cf ≠ Except.ok s := by
  have herr : compilerInit ms cs pd dt (some u) ch cf =
      Except.error (unitErrorMessage u) := by
    simp only [compilerInit, if_neg h]
  exact ⟨herr, fun s hcontra => by rw [herr] at hcontra; cases hcontra⟩

/-- Witness for C8: the unit "yd" is rejected by name. -/
theorem invalid_unit_errors_witness :
    compilerInit 1000 500 5 0 (some "yd") none none =
        Except.error (unitErrorMessage "yd") ∧
      ∀ s, compilerInit 1000 500 5 0 (some "yd") none none ≠ Except.ok s :=
  invalid_unit_errors 1000 500 5 0 "yd" none none (by decide)

/-- `append_line_chain` never touches `pass_depth`. -/
theorem appendLineChain_pass_depth (tol : ℚ) (c : Compiler)
    (chain : List GLine) :
    (appendLineChain tol c chain).pass_depth = c.pass_depth := by
  cases chain <;> rfl

/-- C9: construction succeeds for every `pass_depth` (negative included,
with `unit=None`), stores its absolute value, and for every successfully
constructed compiler the invariant `pass_depth = |input| ≥ 0` holds and
is preserved by `append_line_chain`. -/
theorem pass_depth_abs_invariant (ms cs pd dt : ℚ) (u : Option String)
    (ch cf : Option (List Cmd)) :
    (compilerInit ms cs pd dt none ch cf).isOk = true ∧
      ∀ s, compilerInit ms cs pd dt u ch cf = Except.ok s →
        s.pass_depth = |pd| ∧ 0 ≤ s.pass_depth ∧
          ∀ tol chain, (appendLineChain tol s chain).pass_depth = s.pass_depth := by
  refine ⟨rfl, fun s hs => ?_⟩
  have hpd : s.pass_depth = |pd| := by
    cases u with
    | none =>
      simp only [compilerInit, Except.ok.injEq] at hs
      rw [← hs]
    | some v =>
      simp only [compilerInit] at hs
      split at hs
      · simp only [Except.ok.injEq] at hs
        rw [← hs]
      · cases hs
  exact ⟨hpd, hpd ▸ abs_nonneg pd, fun tol chain => appendLineChain_pass_depth tol s chain⟩

/-- Witness for C9: construction with `pass_depth = -5` succeeds and
stores 5. -/
theorem pass_depth_abs_invariant_witness :
    (compilerInit 1000 500 (-5) 0 none none none).isOk = true ∧
      (compilerInit 1000 500 (-5) 0 none none none = Except.ok negDepthCompiler ∧
        negDepthCompiler.pass_depth = |(-5 : ℚ)| ∧ 0 ≤ negDepthCompiler.pass_depth ∧
        ∀ tol chain,
          (appendLineChain tol negDepthCompiler chain).pass_depth =
            negDepthCompiler.pass_depth) := by
  have h := pass_depth_abs_invariant 1000 500 (-5) 0 none none none
  have heq : compilerInit 1000 500 (-5) 0 none none none =
      Except.ok negDepthCompiler := rfl
  exact ⟨h.1, heq, h.2 negDepthCompiler heq⟩

/-- C10: construction with `unit=None` (the default) succeeds with no
validation error, stores `None`, and `compile` passes the `None` unit
through to `set_unit`. -/
theorem unit_none_passthrough (ms cs pd dt : ℚ) (ch cf : Option (List Cmd)) :
    ∃ s, compilerInit ms cs pd dt none ch cf = Except.ok s ∧ s.unit = none ∧
      ∀ passes, Cmd.set_unit none ∈ s.compileCmds passes := by
  refine ⟨_, rfl, rfl, fun passes => ?_⟩
  simp [Compiler.compileCmds]

/-! Helper lemmas for the shape of the `compile` pass loop. -/

theorem flatten_replicate_append (n : Nat) (a b : List Cmd) :
    (List.replicate n (a ++ b)).flatten ++ a =
      a ++ (List.replicate n (b ++ a)).flatten := by
  induction n with
  | zero => simp
  | succ n ih => simp only [List.replicate_succ, List.flatten_cons,
      List.append_assoc, ih]

/-- The body of `for i in range(passes)` with an extra block after every
iteration but the last equals the body followed by `n` copies of
(extra block, body). -/
theorem loop_shape (body inter : List Cmd) (n : Nat) :
    (List.range (n + 1)).flatMap
        (fun i => body ++ if i < n then inter else []) =
      body ++ (List.replicate n (inter ++ body)).flatten := by
  induction n with
  | zero => simp [List.range_succ]
  | succ n ih =>
    rw [List.range_succ_eq_map]
    simp only [List.flatMap_cons, List.flatMap_map, Function.comp_def,
      Nat.succ_lt_succ_iff, Nat.succ_pos, if_true]
    rw [ih]
    simp [List.replicate_succ, List.append_assoc]

/-- `compile(passes)` for `passes = n + 1`, with the inter-pass block
factored out. -/
theorem compileCmds_shape (c : Compiler) (n : Nat) :
    c.compileCmds (n + 1) =
      c.header ++ [Cmd.set_unit c.unit] ++
        (c.body ++ (List.replicate n (interPass c.pass_depth ++ c.body)).flatten) ++
        c.footer := by
  unfold Compiler.compileCmds
  rw [show n + 1 - 1 = n from rfl, loop_shape]

/-- With a positive `pass_depth` the inter-pass block is exactly the
descend sequence. -/
theorem interPass_pos (d : ℚ) (hd : 0 < d) : interPass d = descendSeq d := by
  simp [interPass, descendSeq, if_pos hd]

/-- With `pass_depth = 0` the inter-pass block is just the laser-off
command. -/
theorem interPass_zero : interPass 0 = [Cmd.laser_off] := by
  simp [interPass]

/-- C1: for a compiler with non-empty body and positive `pass_depth`,
`compile(passes = N)` with `N > 1` produces the header and unit command,
then `N` verbatim copies of the body with exactly `N - 1` descend
sequences (laser off, relative mode, move down by `pass_depth` on z,
restore absolute mode) interleaved between them, then the footer. -/
theorem compile_multipass_descends (c : Compiler) (N : Nat)
    (hdepth : 0 < c.pass_depth) (hN : 1 < N) (_hbody : c.body ≠ []) :
    c.compileCmds N =
      c.header ++ [Cmd.set_unit c.unit] ++
        (c.body ++
          (List.replicate (N - 1) (descendSeq c.pass_depth ++ c.body)).flatten) ++
        c.footer := by
  obtain ⟨n, rfl⟩ : ∃ n, N = n + 1 := ⟨N - 1, by omega⟩
  rw [compileCmds_shape, interPass_pos c.pass_depth hdepth, Nat.add_sub_cancel]

/-- Witness for C1: two passes at depth 5 over a two-command body. -/
theorem compile_multipass_descends_witness :
    multipassCompiler.compileCmds 2 =
      multipassCompiler.header ++ [Cmd.set_unit multipassCompiler.unit] ++
        (multipassCompiler.body ++
          (List.replicate (2 - 1)
            (descendSeq multipassCompiler.pass_depth ++
              multipassCompiler.body)).flatten) ++
        multipassCompiler.footer :=
  compile_multipass_descends multipassCompiler 2
    (by norm_num [multipassCompiler, exampleCompiler])
    (by norm_num)
    (by simp [multipassCompiler, exampleCompiler])

/-- C5 counterexample: with `pass_depth = 0` and two passes the two body
repetitions are not adjacent — the laser-off command is still emitted
between them (line 76 of `_compiler.py` is outside the `pass_depth`
guard). -/
theorem pass_depth_zero_laser_off_cex :
    ¬ (zeroDepthCompiler.compileCmds 2 =
        zeroDepthCompiler.header ++ [Cmd.set_unit none] ++
          zeroDepthCompiler.body ++ zeroDepthCompiler.body ++
          zeroDepthCompiler.footer) ∧
      zeroDepthCompiler.compileCmds 2 =
        zeroDepthCompiler.header ++ [Cmd.set_unit none] ++
          zeroDepthCompiler.body ++ [Cmd.laser_off] ++ zeroDepthCompiler.body ++
          zeroDepthCompiler.footer := by
  constructor <;>
    norm_num [Compiler.compileCmds, zeroDepthCompiler, exampleCompiler,
      interPass, List.range_succ]

/-- C5 (amended): between consecutive pass repetitions the laser-off
command is always emitted; the three descend commands follow it only
when `pass_depth > 0`, so with `pass_depth = 0` consecutive repetitions
are separated by exactly the laser-off command. -/
theorem compile_zero_depth_interpass (c : Compiler) (N : Nat)
    (hdepth : c.pass_depth = 0) (hN : 1 ≤ N) :
    c.compileCmds N =
      c.header ++ [Cmd.set_unit c.unit] ++
        (c.body ++ (List.replicate (N - 1) ([Cmd.laser_off] ++ c.body)).flatten) ++
        c.footer := by
  obtain ⟨n, rfl⟩ : ∃ n, N = n + 1 := ⟨N - 1, by omega⟩
  rw [compileCmds_shape, hdepth, interPass_zero, Nat.add_sub_cancel]

/-! Helper lemmas for the reposition condition. -/

theorem repositionNeeded_iff (tol : ℚ) (pos : Option Vec) (start : Vec) :
    repositionNeeded tol pos start = true ↔
      pos = none ∨ ∃ p, pos = some p ∧ tol ^ 2 < Vec.magSq (p.sub start) := by
  cases pos <;> simp [repositionNeeded]

theorem magSq_sub_self (p : Vec) : Vec.magSq (p.sub p) = 0 := by
  simp [Vec.sub, Vec.magSq]

theorem repositionNeeded_same (tol : ℚ) (p : Vec) :
    repositionNeeded tol (some p) p = false := by
  simp only [repositionNeeded, magSq_sub_self, decide_eq_false_iff_not, not_lt]
  positivity

/-- C2: for a non-empty chain, `append_line_chain` emits the reposition
sequence (dwell when configured, laser off, movement speed, travel move
to the chain start, scaled cutting speed, laser power) before the
segment moves exactly when the interface's tracked position is unset or
farther than the operation tolerance from the chain's start; and a
second chain starting exactly at the first chain's end point is emitted
without any reposition sequence. -/
theorem append_line_chain_reposition_iff (tol : ℚ) (c : Compiler)
    (line0 : GLine) (rest : List GLine) (line0' : GLine) (rest' : List GLine)
    (hlink : line0'.start = ((line0 :: rest).getLast?.getD line0).endp) :
    (appendCode tol c (line0 :: rest) =
        repositionSeq c line0.start (derivedPower line0)
          (derivedSpeedMultiplier line0) ++ segmentMoves (line0 :: rest) ↔
      c.position = none ∨
        ∃ p, c.position = some p ∧ tol ^ 2 < Vec.magSq (p.sub line0.start)) ∧
      appendCode tol (appendLineChain tol c (line0 :: rest)) (line0' :: rest') =
        segmentMoves (line0' :: rest') := by
  constructor
  · constructor
    · intro heq
      by_contra hcond
      have hrn : repositionNeeded tol c.position line0.start = false :=
        Bool.eq_false_iff.mpr fun ht =>
          hcond ((repositionNeeded_iff tol c.position line0.start).mp ht)
      have hcode : appendCode tol c (line0 :: rest) = segmentMoves (line0 :: rest) := by
        simp [appendCode, hrn]
      rw [hcode] at heq
      have hlen := congrArg List.length heq
      by_cases hdw : 0 < c.dwell_time <;>
        simp [repositionSeq, segmentMoves, hdw] at hlen
    · intro hcond
      have hrn := (repositionNeeded_iff tol c.position line0.start).mpr hcond
      simp [appendCode, hrn]
  · have hpos : (appendLineChain tol c (line0 :: rest)).position =
        some (((line0 :: rest).getLast?.getD line0).endp) := rfl
    have hrn : repositionNeeded tol (appendLineChain tol c (line0 :: rest)).position
        line0'.start = false := by
      rw [hpos, hlink]
      exact repositionNeeded_same tol _
    simp [appendCode, hrn]

/-- Witness for C2: a fresh compiler (no tracked position) repositions
for the first chain, and a second chain starting at (10,0) — the first
chain's end — is appended without a reposition sequence. -/
theorem append_line_chain_reposition_iff_witness :
    (appendCode tolOp exampleCompiler [exampleLine] =
        repositionSeq exampleCompiler exampleLine.start (derivedPower exampleLine)
          (derivedSpeedMultiplier exampleLine) ++ segmentMoves [exampleLine] ↔
      exampleCompiler.position = none ∨
        ∃ p, exampleCompiler.position = some p ∧
          tolOp ^ 2 < Vec.magSq (p.sub exampleLine.start)) ∧
      appendCode tolOp (appendLineChain tolOp exampleCompiler [exampleLine])
          [exampleLine2] =
        segmentMoves [exampleLine2] :=
  append_line_chain_reposition_iff tolOp exampleCompiler exampleLine [] exampleLine2
    [] rfl

/-- Python's `round` of zero is zero. -/
theorem round4_zero : round4 0 = 0 := by
  norm_num [round4, roundHalfEven]

/-- C4 counterexample: a chain whose first segment has
`stroke_width = 0.6` (and default colour payload) ends with
`laser_power = 1`, not the stroke-width image 0.6 — line 146 of
`_compiler.py` overwrites the stroke-width-derived power
unconditionally. -/
theorem laser_power_stroke_width_cex :
    (appendLineChain tolOp exampleCompiler [thickLine]).laser_power = 1 ∧
      ¬ (appendLineChain tolOp exampleCompiler [thickLine]).laser_power =
          thickLine.strokeWidth := by
  have h1 : (appendLineChain tolOp exampleCompiler [thickLine]).laser_power = 1 := by
    norm_num [appendLineChain, derivedPower, deriveOpacityGray, thickLine,
      round4_zero]
  refine ⟨h1, ?_⟩
  rw [h1]
  norm_num [thickLine]

/-- C4 (amended): when `stroke_width > 0` the value `min(stroke_width,
1)` is assigned to `laser_power` transiently (lines 122-127), but the
final `laser_power` stored by `append_line_chain` is the unconditional
line-146 value `opacity - round(gray * 0.997826086956047, 4)`. -/
theorem laser_power_final_overwrite (tol : ℚ) (c : Compiler) (line0 : GLine)
    (rest : List GLine) (h : 0 < line0.strokeWidth) :
    strokeWidthPower c.laser_power line0.strokeWidth = min line0.strokeWidth 1 ∧
      (appendLineChain tol c (line0 :: rest)).laser_power = derivedPower line0 := by
  constructor
  · rw [strokeWidthPower, if_pos h]
    rcases le_or_lt line0.strokeWidth 1 with h1 | h1
    · rw [if_neg (not_lt.mpr h1)]
      exact (min_eq_left h1).symm
    · rw [if_pos h1]
      exact (min_eq_right h1.le).symm
  · rfl

/-- Witness for C4: the amended statement at `stroke_width = 0.6`. -/
theorem laser_power_final_overwrite_witness :
    strokeWidthPower exampleCompiler.laser_power thickLine.strokeWidth =
        min thickLine.strokeWidth 1 ∧
      (appendLineChain tolOp exampleCompiler [thickLine]).laser_power =
        derivedPower thickLine :=
  laser_power_final_overwrite tolOp exampleCompiler thickLine []
    (by norm_num [thickLine])

/-- C6 counterexample: the worked example does not produce the claimed
order — the default header's laser-off command precedes the unit
command (the unit command is appended after the whole header), and both
the header's and the reposition sequence's laser-off commands appear. -/
theorem compile_example_order_cex :
    ¬ ((appendLineChain tolOp exampleCompiler [exampleLine]).compileCmds 1 =
        [Cmd.set_absolute_coordinates, Cmd.set_movement_speed 1000,
         Cmd.set_unit none, Cmd.laser_off, Cmd.set_movement_speed 1000,
         Cmd.linear_move (some 0) (some 0) none (some 0),
         Cmd.set_movement_speed 500, Cmd.set_laser_power 1,
         Cmd.linear_move (some 10) (some 0) none none, Cmd.laser_off]) := by
  norm_num [appendLineChain, appendCode, repositionNeeded, repositionSeq,
    segmentMoves, derivedPower, derivedSpeedMultiplier, deriveOpacityGray,
    round4_zero, Compiler.compileCmds, interPass, exampleCompiler, exampleLine,
    tolOp, List.range_succ]

/-- C6 (amended): the worked example — `Line` (0,0)→(10,0),
movement speed 1000, cutting speed 500, `pass_depth = 0`, one pass,
defaults elsewhere — compiles to exactly: absolute mode, movement
speed, laser off (default header), unit, laser off, movement speed,
move to (0,0), cutting speed, power, move to (10,0), laser off. -/
theorem compile_example_order :
    (appendLineChain tolOp exampleCompiler [exampleLine]).compileCmds 1 =
      [Cmd.set_absolute_coordinates, Cmd.set_movement_speed 1000, Cmd.laser_off,
       Cmd.set_unit none, Cmd.laser_off, Cmd.set_movement_speed 1000,
       Cmd.linear_move (some 0) (some 0) none (some 0),
       Cmd.set_movement_speed 500, Cmd.set_laser_power 1,
       Cmd.linear_move (some 10) (some 0) none none, Cmd.laser_off] := by
  norm_num [appendLineChain, appendCode, repositionNeeded, repositionSeq,
    segmentMoves, derivedPower, derivedSpeedMultiplier, deriveOpacityGray,
    round4_zero, Compiler.compileCmds, interPass, exampleCompiler, exampleLine,
    tolOp, List.range_succ]

/-- Witness for C5: two passes at depth 0 over a one-command body. -/
theorem compile_zero_depth_interpass_witness :
    zeroDepthCompiler.compileCmds 2 =
      zeroDepthCompiler.header ++ [Cmd.set_unit zeroDepthCompiler.unit] ++
        (zeroDepthCompiler.body ++
          (List.replicate (2 - 1)
            ([Cmd.laser_off] ++ zeroDepthCompiler.body)).flatten) ++
        zeroDepthCompiler.footer :=
  compile_zero_depth_interpass zeroDepthCompiler 2 rfl (by norm_num)

end SvgToGcode
